import Mathlib

/-!
Shallow embedding of the Light State Restoration integration
(`src/__init__.py`, `src/const.py`): the occupancy-to-restoration
decision engine of the `LightStateRestorationManager` class.

Modelling conventions:
* A time-of-day is embedded as `Nat` seconds since midnight; the Python
  `datetime.time` ordering used by `start <= current_time <= end` is
  order-isomorphic to this embedding.
* Python dicts with string keys (`_motion_active`, `_restore_timers`)
  are association lists with unique keys; `updateAssoc` is dict
  assignment (overwrite), `eraseAssoc` is `dict.pop(key, None)`.
* asyncio tasks created by `hass.async_create_task` are identified by a
  `Nat` task id drawn from a counter; `live_timers` holds the ids of
  delay-timer tasks that have been created and not cancelled.  A task
  keeps running when the dict entry pointing at it is overwritten, so
  `live_timers` is tracked independently of the `restore_timers` dict.
* Side effects (service calls, bus events, task spawns, cancellations)
  are collected in order into a `List Effect`.
* Numeric sensor readings and the illuminance threshold are embedded as
  `ℚ`; `float(state.state)` failing with `ValueError`/`TypeError` is the
  `Reading.nonNumeric` case, a missing state is `Reading.missing`.
-/

namespace LightStateRestoration

/-- `homeassistant.const.STATE_ON`. -/
def STATE_ON : String := "on"

/-- `const.EVENT_RESTORATION_TRIGGERED`. -/
def EVENT_RESTORATION_TRIGGERED : String := "light_restoration_triggered"

/-- `const.EVENT_RESTORATION_CANCELLED`. -/
def EVENT_RESTORATION_CANCELLED : String := "light_restoration_cancelled"

/-- `const.EVENT_TIME_SLOT_ADDED`. -/
def EVENT_TIME_SLOT_ADDED : String := "time_slot_added"

/-- `const.EVENT_TIME_SLOT_REMOVED`. -/
def EVENT_TIME_SLOT_REMOVED : String := "time_slot_removed"

/-- `const.DEFAULT_DELAY` (seconds). -/
def DEFAULT_DELAY : Int := 180

/-- `const.DEFAULT_ILLUMINANCE_THRESHOLD` (lux). -/
def DEFAULT_ILLUMINANCE_THRESHOLD : ℚ := 10

/-- A raw, unparsed time slot as stored in the config entry data:
the `{start_time, end_time}` dict of two strings. -/
abbrev RawSlot := String × String

/-- A parsed time slot: both bounds as time-of-day (seconds since
midnight), the result of `dt_util.parse_time` on a raw slot. -/
structure TimeSlot where
  start_time : Nat
  end_time : Nat
deriving DecidableEq, Repr

/-- The relevant fields of `entry.data` (engine view, with the slots
already parsed). -/
structure Config where
  area : String
  lights : List String
  motion_sensors : List String
  illuminance_sensors : List String
  illuminance_threshold : ℚ
  delay : Int
  time_slots : List TimeSlot
deriving Repr

/-- A sensor reading as seen through `hass.states.get`:
absent state, non-numeric state string, or a numeric value. -/
inductive Reading where
  | missing
  | nonNumeric
  | value (v : ℚ)
deriving DecidableEq, Repr

/-- The external world consulted by the engine: the host clock
(`dt_util.now().time()`), the sensor state machine, and whether the
external `light_state_management.restore_state` call raises. -/
structure Env where
  current_time : Nat
  reading : String → Reading
  restore_raises : Bool

/-- An observable side effect of the manager, in program order. -/
inductive Effect where
  | callRestoreState (entity_ids : List String)
  | callTurnOff (entity_id : String)
  | fireEvent (event_type : String) (area : String)
  | fireSlotEvent (event_type : String) (area : String) (slot : RawSlot)
  | cancelTimer (task_id : Nat)
  | spawnRestoreTask
  | spawnDelayTimer (sensor : String) (task_id : Nat) (delay : Int)
deriving DecidableEq, Repr

/-- `true` for the `light.turn_off` service-call effect. -/
def is_turn_off : Effect → Bool
  | Effect.callTurnOff _ => true
  | _ => false

/-- Dict lookup on an association list. -/
def lookupAssoc (k : String) : List (String × β) → Option β
  | [] => none
  | (k₀, v₀) :: rest => if k₀ = k then some v₀ else lookupAssoc k rest

/-- Dict assignment `d[k] = v`: overwrites the entry for `k` in place if
present, otherwise appends it. -/
def updateAssoc (k : String) (v : β) : List (String × β) → List (String × β)
  | [] => [(k, v)]
  | (k₀, v₀) :: rest =>
    if k₀ = k then (k, v) :: rest else (k₀, v₀) :: updateAssoc k v rest

/-- Dict removal `d.pop(k, None)` (the mapping part). -/
def eraseAssoc (k : String) : List (String × β) → List (String × β)
  | [] => []
  | (k₀, v₀) :: rest =>
    if k₀ = k then rest else (k₀, v₀) :: eraseAssoc k rest

/-- The mutable runtime state of one `LightStateRestorationManager`:
`_enabled`, `_motion_active`, `_restore_timers` (sensor id → task id of
the pending delay timer), plus the scheduler bookkeeping (`live_timers`:
created-and-not-cancelled delay-timer tasks; `next_task_id`: fresh id
counter). -/
structure ManagerState where
  enabled : Bool
  motion_active : List (String × Bool)
  restore_timers : List (String × Nat)
  live_timers : List Nat
  next_task_id : Nat
deriving DecidableEq, Repr

/-- `_is_in_active_time_slot` (src/__init__.py:168-179): the loop
`for slot in time_slots: if start <= current_time <= end: return True`,
falling through to `False`. -/
def is_in_active_time_slot (current_time : Nat) : List TimeSlot → Bool
  | [] => false
  | slot :: rest =>
    if slot.start_time ≤ current_time ∧ current_time ≤ slot.end_time then true
    else is_in_active_time_slot current_time rest

/-- The sensor loop of `_check_illuminance` (src/__init__.py:191-202):
skip missing states, skip states whose `float(...)` raises, return
`False` on a reading strictly above the threshold, else `True`. -/
def check_illuminance_loop (threshold : ℚ) (reading : String → Reading) :
    List String → Bool
  | [] => true
  | sensor_id :: rest =>
    match reading sensor_id with
    | Reading.missing => check_illuminance_loop threshold reading rest
    | Reading.nonNumeric => check_illuminance_loop threshold reading rest
    | Reading.value v =>
      if v > threshold then false else check_illuminance_loop threshold reading rest

/-- `_check_illuminance` (src/__init__.py:181-202): an empty (or absent)
illuminance-sensor list returns `True` immediately, otherwise the sensor
loop decides. -/
def check_illuminance (sensors : List String) (threshold : ℚ)
    (reading : String → Reading) : Bool :=
  if sensors.isEmpty then true
  else check_illuminance_loop threshold reading sensors

/-- `any(self._motion_active.values())`. -/
def any_motion_active (motion : List (String × Bool)) : Bool :=
  motion.any (fun p => p.2)

/-- `_restore_lights` (src/__init__.py:204-225).  Returns the effect
trace and whether the call raised (the awaited
`light_state_management.restore_state` call propagates its exception
before the `light_restoration_triggered` event is fired). -/
def restore_lights (cfg : Config) (env : Env) (enabled : Bool) :
    List Effect × Bool :=
  if !enabled || !(is_in_active_time_slot env.current_time cfg.time_slots) then
    ([], false)
  else if !(check_illuminance cfg.illuminance_sensors cfg.illuminance_threshold
      env.reading) then
    ([], false)
  else if env.restore_raises then
    ([Effect.callRestoreState cfg.lights], true)
  else
    ([Effect.callRestoreState cfg.lights,
      Effect.fireEvent EVENT_RESTORATION_TRIGGERED cfg.area], false)

/-- `_handle_motion_change` (src/__init__.py:227-245).  On an active
sensor: pop and cancel that sensor's pending timer, then spawn the
restore task.  On an inactive sensor with positive delay: create a delay
timer task and assign it into `_restore_timers[sensor]` (a plain dict
overwrite — the code does not cancel a previously pending task here). -/
def handle_motion_change (cfg : Config) (st : ManagerState)
    (motion_sensor_id : String) : ManagerState × List Effect :=
  if st.enabled = false then (st, [])
  else if lookupAssoc motion_sensor_id st.motion_active = some true then
    match lookupAssoc motion_sensor_id st.restore_timers with
    | some tid =>
      ({ st with
          restore_timers := eraseAssoc motion_sensor_id st.restore_timers,
          live_timers := st.live_timers.filter (fun t => decide (t ≠ tid)) },
       [Effect.cancelTimer tid, Effect.spawnRestoreTask])
    | none => (st, [Effect.spawnRestoreTask])
  else
    if cfg.delay > 0 then
      ({ st with
          restore_timers :=
            updateAssoc motion_sensor_id st.next_task_id st.restore_timers,
          live_timers := st.live_timers ++ [st.next_task_id],
          next_task_id := st.next_task_id + 1 },
       [Effect.spawnDelayTimer motion_sensor_id st.next_task_id cfg.delay])
    else (st, [])

/-- `handle_motion` (src/__init__.py:131-143): ignore entities that are
not keys of `_motion_active`; ignore events with `new_state is None`;
otherwise record `new_state.state == STATE_ON` and run
`_handle_motion_change`. -/
def handle_motion (cfg : Config) (st : ManagerState) (entity_id : String)
    (new_state : Option String) : ManagerState × List Effect :=
  match lookupAssoc entity_id st.motion_active with
  | none => (st, [])
  | some _ =>
    match new_state with
    | none => (st, [])
    | some s =>
      handle_motion_change cfg
        { st with
            motion_active :=
              updateAssoc entity_id (decide (s = STATE_ON)) st.motion_active }
        entity_id

/-- How one run of a delay-timer task ends: its `asyncio.sleep` elapsed,
or the task was cancelled during the sleep. -/
inductive TimerOutcome where
  | elapsed
  | cancelled
deriving DecidableEq, Repr

/-- `_handle_delay_timer` (src/__init__.py:247-271) for the timer of
`motion_sensor_id`: on an elapsed sleep with no motion sensor active,
turn each configured light off and fire `light_restoration_cancelled`;
on an elapsed sleep with some sensor active, do nothing; on
cancellation, `CancelledError` is swallowed.  The `finally` block always
pops the sensor's entry from `_restore_timers`. -/
def handle_delay_timer (cfg : Config) (motion : List (String × Bool))
    (restore_timers : List (String × Nat)) (motion_sensor_id : String)
    (outcome : TimerOutcome) : List Effect × List (String × Nat) :=
  match outcome with
  | TimerOutcome.cancelled => ([], eraseAssoc motion_sensor_id restore_timers)
  | TimerOutcome.elapsed =>
    if any_motion_active motion then
      ([], eraseAssoc motion_sensor_id restore_timers)
    else
      (cfg.lights.map Effect.callTurnOff
         ++ [Effect.fireEvent EVENT_RESTORATION_CANCELLED cfg.area],
       eraseAssoc motion_sensor_id restore_timers)

/-- `_handle_add_time_slot` (src/__init__.py:286-307): build the new
slot dict from the call data, append it to the slot list, store the new
config data, fire `time_slot_added`.  No parsing or validation of the
two strings happens anywhere in the handler. -/
def handle_add_time_slot (area : String) (time_slots : List RawSlot)
    (start_time end_time : String) : List RawSlot × List Effect :=
  (time_slots ++ [(start_time, end_time)],
   [Effect.fireSlotEvent EVENT_TIME_SLOT_ADDED area (start_time, end_time)])

/-- `_handle_remove_time_slot` (src/__init__.py:309-333): keep every
slot different from the `(start_time, end_time)` pair, store the new
config data, fire `time_slot_removed` unconditionally. -/
def handle_remove_time_slot (area : String) (time_slots : List RawSlot)
    (start_time end_time : String) : List RawSlot × List Effect :=
  (time_slots.filter (fun slot => !(slot == (start_time, end_time))),
   [Effect.fireSlotEvent EVENT_TIME_SLOT_REMOVED area (start_time, end_time)])

/-- The body of `_handle_disable` past the area filter
(src/__init__.py:349-354): set `_enabled = False`, cancel every task in
`_restore_timers.values()`, clear the dict. -/
def disable_rule (st : ManagerState) : ManagerState × List Effect :=
  ({ st with
      enabled := false,
      restore_timers := [],
      live_timers :=
        st.live_timers.filter
          (fun t => decide (t ∉ st.restore_timers.map Prod.snd)) },
   st.restore_timers.map (fun p => Effect.cancelTimer p.2))

/-- `_handle_disable` (src/__init__.py:343-354): an area filter that is
truthy (non-empty) and different from this rule's area makes the call a
no-op; otherwise disable the rule. -/
def handle_disable (cfg : Config) (st : ManagerState)
    (area_filter : Option String) : ManagerState × List Effect :=
  match area_filter with
  | some a => if a ≠ "" ∧ a ≠ cfg.area then (st, []) else disable_rule st
  | none => disable_rule st

/-- Split a character list into the groups separated by colons. -/
def split_on_colon : List Char → List (List Char)
  | [] => [[]]
  | c :: rest =>
    let r := split_on_colon rest
    if c = ':' then [] :: r
    else
      match r with
      | [] => [[c]]
      | g :: gs => (c :: g) :: gs

/-- Read a nonempty all-digit character group as a number. -/
def digits_to_nat (cs : List Char) : Option Nat :=
  if cs = [] then none
  else if cs.all Char.isDigit then
    some (cs.foldl (fun n c => n * 10 + (c.toNat - 48)) 0)
  else none

/-- Modelled from the spec: the external time-of-day parse used by the
administration surface ("start/end required strings parseable as
time-of-day", format `HH:MM:SS` or `HH:MM`).  The repository delegates
parsing to the host platform (`dt_util.parse_time`), which is not part
of the source; this model only decides what "malformed time string"
means.  The result is seconds since midnight. -/
def parse_time (s : String) : Option Nat :=
  match (split_on_colon s.data).map digits_to_nat with
  | [some h, some m] =>
    if h < 24 ∧ m < 60 then some (h * 3600 + m * 60) else none
  | [some h, some m, some sec] =>
    if h < 24 ∧ m < 60 ∧ sec < 60 then some (h * 3600 + m * 60 + sec) else none
  | _ => none

/-- A concrete single-light, single-motion-sensor configuration used by
the concrete scenarios below. -/
def cfg0 : Config :=
  { area := "living_room",
    lights := ["light.l1"],
    motion_sensors := ["binary_sensor.m"],
    illuminance_sensors := [],
    illuminance_threshold := DEFAULT_ILLUMINANCE_THRESHOLD,
    delay := DEFAULT_DELAY,
    time_slots := [] }

/-- `cfg0` with a 08:00–22:00 time slot and one illuminance sensor. -/
def cfg1 : Config :=
  { cfg0 with
      illuminance_sensors := ["sensor.lux"],
      time_slots := [{ start_time := 28800, end_time := 79200 }] }

/-- An environment at 09:00 with a 5 lux reading and a succeeding
restore call. -/
def env1 : Env :=
  { current_time := 32400,
    reading := fun _ => Reading.value 5,
    restore_raises := false }

/-- The manager state right after `async_setup` for `cfg0`: every
configured motion sensor initialized inactive, no timers. -/
def st0 : ManagerState :=
  { enabled := true,
    motion_active := [("binary_sensor.m", false)],
    restore_timers := [],
    live_timers := [],
    next_task_id := 0 }

/-- State after one inactive motion event for `binary_sensor.m`
(one delay timer armed, task id 0). -/
def st_armed_once : ManagerState :=
  (handle_motion cfg0 st0 "binary_sensor.m" (some "off")).1

/-- State after a second consecutive inactive motion event for the same
sensor (the dict entry now holds task id 1). -/
def st_armed_twice : ManagerState :=
  (handle_motion cfg0 st_armed_once "binary_sensor.m" (some "off")).1

/-- The effects emitted by that second arming. -/
def effects_second_arm : List Effect :=
  (handle_motion cfg0 st_armed_once "binary_sensor.m" (some "off")).2

/-- Running the first delay-timer task (task id 0) to elapse in
`st_armed_twice`, with no motion active. -/
def run_first_timer : List Effect × List (String × Nat) :=
  handle_delay_timer cfg0 st_armed_twice.motion_active
    st_armed_twice.restore_timers "binary_sensor.m" TimerOutcome.elapsed

/-- Then running the second delay-timer task (task id 1) to elapse. -/
def run_second_timer : List Effect × List (String × Nat) :=
  handle_delay_timer cfg0 st_armed_twice.motion_active
    run_first_timer.2 "binary_sensor.m" TimerOutcome.elapsed

/-- All effects fired by the two timers of the double-arm sequence. -/
def fired_after_two_arms : List Effect :=
  run_first_timer.1 ++ run_second_timer.1

theorem check_illuminance_loop_false_iff (threshold : ℚ)
    (reading : String → Reading) (sensors : List String) :
    check_illuminance_loop threshold reading sensors = false ↔
      ∃ s ∈ sensors, ∃ v, reading s = Reading.value v ∧ threshold < v := by
  induction sensors with
  | nil => simp [check_illuminance_loop]
  | cons a rest ih =>
    simp only [check_illuminance_loop]
    cases h : reading a with
    | missing =>
      rw [ih]
      constructor
      · rintro ⟨s, hs, v, hv, hlt⟩
        exact ⟨s, List.mem_cons_of_mem _ hs, v, hv, hlt⟩
      · rintro ⟨s, hs, v, hv, hlt⟩
        rcases List.mem_cons.mp hs with rfl | hs
        · rw [h] at hv; cases hv
        · exact ⟨s, hs, v, hv, hlt⟩
    | nonNumeric =>
      rw [ih]
      constructor
      · rintro ⟨s, hs, v, hv, hlt⟩
        exact ⟨s, List.mem_cons_of_mem _ hs, v, hv, hlt⟩
      · rintro ⟨s, hs, v, hv, hlt⟩
        rcases List.mem_cons.mp hs with rfl | hs
        · rw [h] at hv; cases hv
        · exact ⟨s, hs, v, hv, hlt⟩
    | value v =>
      dsimp only
      by_cases hv : v > threshold
      · rw [if_pos hv]
        exact iff_of_true rfl ⟨a, List.mem_cons_self a rest, v, h, hv⟩
      · rw [if_neg hv, ih]
        constructor
        · rintro ⟨s, hs, w, hw, hlt⟩
          exact ⟨s, List.mem_cons_of_mem _ hs, w, hw, hlt⟩
        · rintro ⟨s, hs, w, hw, hlt⟩
          rcases List.mem_cons.mp hs with rfl | hs
          · rw [h] at hw
            injection hw with hw
            subst hw
            exact absurd hlt hv
          · exact ⟨s, hs, w, hw, hlt⟩

/-- Claim C5: the time-window check returns true iff some slot satisfies
`slot.start ≤ t ≤ slot.end`, inclusive on both ends (a single-instant
slot `{t, t}` matches `t`), and the empty slot list yields false. -/
theorem is_in_active_time_slot_spec (t : Nat) (L : List TimeSlot) :
    (is_in_active_time_slot t L = true ↔
      ∃ s ∈ L, s.start_time ≤ t ∧ t ≤ s.end_time) ∧
    is_in_active_time_slot t [] = false ∧
    is_in_active_time_slot t [{ start_time := t, end_time := t }] = true := by
  refine ⟨?_, rfl, by simp [is_in_active_time_slot]⟩
  induction L with
  | nil => simp [is_in_active_time_slot]
  | cons s rest ih =>
    simp only [is_in_active_time_slot]
    by_cases h : s.start_time ≤ t ∧ t ≤ s.end_time
    · rw [if_pos h]
      exact iff_of_true rfl ⟨s, List.mem_cons_self s rest, h⟩
    · rw [if_neg h, ih]
      constructor
      · rintro ⟨x, hx, hp⟩
        exact ⟨x, List.mem_cons_of_mem _ hx, hp⟩
      · rintro ⟨x, hx, hp⟩
        rcases List.mem_cons.mp hx with rfl | hx
        · exact absurd hp h
        · exact ⟨x, hx, hp⟩

/-- Claim C6: the illuminance gate is true whenever the configured
illuminance-sensor list is empty, and otherwise it is false iff some
configured sensor has a present numeric reading strictly above the
threshold; missing and non-numeric readings never block the gate. -/
theorem check_illuminance_spec (sensors : List String) (threshold : ℚ)
    (reading : String → Reading) :
    (sensors = [] → check_illuminance sensors threshold reading = true) ∧
    (check_illuminance sensors threshold reading = false ↔
      ∃ s ∈ sensors, ∃ v, reading s = Reading.value v ∧ threshold < v) := by
  constructor
  · rintro rfl
    rfl
  · rcases sensors with _ | ⟨a, rest⟩
    · simp [check_illuminance]
    · exact check_illuminance_loop_false_iff threshold reading (a :: rest)

/-- Witness for claim C6 at the empty sensor list. -/
theorem check_illuminance_spec_witness :
    check_illuminance [] 10 (fun _ => Reading.missing) = true :=
  (check_illuminance_spec [] 10 (fun _ => Reading.missing)).1 rfl

/-- Claim C1: `_restore_lights` is a no-op unless all of {enabled,
time-window, illuminance gate} hold; when they hold it performs the
awaited restore-saved-light-states call for the configured lights and
only then fires `light_restoration_triggered` with the rule's area, so
on every run in which the restore call raises no triggered event is
emitted. -/
theorem restore_lights_guarded (cfg : Config) (env : Env) (enabled : Bool) :
    (¬(enabled = true ∧
        is_in_active_time_slot env.current_time cfg.time_slots = true ∧
        check_illuminance cfg.illuminance_sensors cfg.illuminance_threshold
          env.reading = true) →
      restore_lights cfg env enabled = ([], false)) ∧
    (enabled = true →
      is_in_active_time_slot env.current_time cfg.time_slots = true →
      check_illuminance cfg.illuminance_sensors cfg.illuminance_threshold
        env.reading = true →
      (env.restore_raises = true →
        restore_lights cfg env enabled =
          ([Effect.callRestoreState cfg.lights], true)) ∧
      (env.restore_raises = false →
        restore_lights cfg env enabled =
          ([Effect.callRestoreState cfg.lights,
            Effect.fireEvent EVENT_RESTORATION_TRIGGERED cfg.area], false))) ∧
    ((restore_lights cfg env enabled).2 = true →
      Effect.fireEvent EVENT_RESTORATION_TRIGGERED cfg.area ∉
        (restore_lights cfg env enabled).1) := by
  unfold restore_lights
  cases enabled with
  | false => simp
  | true =>
    cases h1 : is_in_active_time_slot env.current_time cfg.time_slots with
    | false => simp [h1]
    | true =>
      cases h2 : check_illuminance cfg.illuminance_sensors
          cfg.illuminance_threshold env.reading with
      | false => simp [h2]
      | true =>
        cases h3 : env.restore_raises with
        | false => simp [h3]
        | true => simp [h3]

/-- Witness for claim C1: with all three guards passing and a
succeeding restore call, the restore service call comes first and the
triggered event second. -/
theorem restore_lights_guarded_witness :
    restore_lights cfg1 env1 true =
      ([Effect.callRestoreState ["light.l1"],
        Effect.fireEvent EVENT_RESTORATION_TRIGGERED "living_room"], false) := by
  have h := restore_lights_guarded cfg1 env1 true
  exact (h.2.1 rfl (by decide) (by decide)).2 rfl

/-- Claim C4: an elapsed delay timer turns every configured light off
and fires `light_restoration_cancelled` iff no tracked motion sensor is
active; if any is active the elapsed timer does nothing; and on every
exit path (elapsed or cancelled) the sensor's entry is popped from the
pending-timer map. -/
theorem handle_delay_timer_spec (cfg : Config) (motion : List (String × Bool))
    (timers : List (String × Nat)) (sensor : String) (outcome : TimerOutcome) :
    (handle_delay_timer cfg motion timers sensor outcome).2 =
      eraseAssoc sensor timers ∧
    (outcome = TimerOutcome.elapsed → any_motion_active motion = false →
      (handle_delay_timer cfg motion timers sensor outcome).1 =
        cfg.lights.map Effect.callTurnOff
          ++ [Effect.fireEvent EVENT_RESTORATION_CANCELLED cfg.area]) ∧
    (outcome = TimerOutcome.elapsed → any_motion_active motion = true →
      (handle_delay_timer cfg motion timers sensor outcome).1 = []) ∧
    (outcome = TimerOutcome.cancelled →
      (handle_delay_timer cfg motion timers sensor outcome).1 = []) := by
  cases outcome <;> cases h : any_motion_active motion <;>
    simp [handle_delay_timer, h]

/-- Witness for claim C4: an elapsed timer with no motion active turns
the configured light off and fires the cancelled event. -/
theorem handle_delay_timer_spec_witness :
    (handle_delay_timer cfg0 [("binary_sensor.m", false)]
        [("binary_sensor.m", 0)] "binary_sensor.m" TimerOutcome.elapsed).1 =
      [Effect.callTurnOff "light.l1",
       Effect.fireEvent EVENT_RESTORATION_CANCELLED "living_room"] := by
  have h := handle_delay_timer_spec cfg0 [("binary_sensor.m", false)]
    [("binary_sensor.m", 0)] "binary_sensor.m" TimerOutcome.elapsed
  exact h.2.1 rfl rfl

/-- Claim C9: a state-change event for an entity that is not a key of
the occupancy map leaves the whole manager state unchanged and produces
no effect. -/
theorem handle_motion_unknown_entity (cfg : Config) (st : ManagerState)
    (entity_id : String) (new_state : Option String)
    (h : lookupAssoc entity_id st.motion_active = none) :
    handle_motion cfg st entity_id new_state = (st, []) := by
  unfold handle_motion
  rw [h]

/-- Witness for claim C9 at a concrete unrelated entity. -/
theorem handle_motion_unknown_entity_witness :
    handle_motion cfg0 st0 "switch.unrelated" (some "on") = (st0, []) :=
  handle_motion_unknown_entity cfg0 st0 "switch.unrelated" (some "on")
    (by decide)

/-- Claim C10: a state-change event for a configured motion sensor whose
new state is absent (`None`) returns early: the state, the timers and
the enabled flag are unchanged and no effect is produced. -/
theorem handle_motion_none_new_state (cfg : Config) (st : ManagerState)
    (entity_id : String) (b : Bool)
    (h : lookupAssoc entity_id st.motion_active = some b) :
    handle_motion cfg st entity_id none = (st, []) := by
  unfold handle_motion
  rw [h]

/-- Witness for claim C10 at the configured sensor of `st0`. -/
theorem handle_motion_none_new_state_witness :
    handle_motion cfg0 st0 "binary_sensor.m" none = (st0, []) :=
  handle_motion_none_new_state cfg0 st0 "binary_sensor.m" false (by decide)

/-- Claim C7: disabling the rule (no area filter, or a filter equal to
this rule's area) sets enabled to false, emits a cancellation for every
pending timer, leaves the pending-timer map empty, removes every pending
task from the live set, and a cancelled delay timer produces no effect
at all — in particular zero turn-off actions. -/
theorem disable_cancels_all (cfg : Config) (st : ManagerState)
    (filt : Option String) (h : filt = none ∨ filt = some cfg.area) :
    (handle_disable cfg st filt).1.enabled = false ∧
    (handle_disable cfg st filt).1.restore_timers = [] ∧
    (handle_disable cfg st filt).2 =
      st.restore_timers.map (fun p => Effect.cancelTimer p.2) ∧
    (∀ p ∈ st.restore_timers,
      p.2 ∉ (handle_disable cfg st filt).1.live_timers) ∧
    (∀ (motion : List (String × Bool)) (timers : List (String × Nat))
        (sensor : String),
      (handle_delay_timer cfg motion timers sensor TimerOutcome.cancelled).1 =
        []) := by
  have hd : handle_disable cfg st filt = disable_rule st := by
    rcases h with rfl | rfl
    · rfl
    · simp [handle_disable]
  rw [hd]
  refine ⟨rfl, rfl, rfl, ?_, fun motion timers sensor => rfl⟩
  intro p hp hmem
  simp only [disable_rule] at hmem
  have h2 := (List.mem_filter.mp hmem).2
  rw [decide_eq_true_iff] at h2
  exact h2 (List.mem_map_of_mem Prod.snd hp)

/-- Witness for claim C7: disabling with one pending timer cancels it,
clears the map and emits exactly the cancellation. -/
theorem disable_cancels_all_witness :
    (handle_disable cfg0 st_armed_once none).1.enabled = false ∧
    (handle_disable cfg0 st_armed_once none).1.restore_timers = [] ∧
    (handle_disable cfg0 st_armed_once none).2 = [Effect.cancelTimer 0] := by
  have h := disable_cancels_all cfg0 st_armed_once none (Or.inl rfl)
  exact ⟨h.1, h.2.1, h.2.2.1⟩

/-- Claim C8: remove-time-slot removes every slot equal to the requested
pair (all duplicates), preserves the multiplicity of every other slot,
leaves the list unchanged when nothing matches, and fires
`time_slot_removed` in every case, the no-match case included. -/
theorem remove_time_slot_spec (area : String) (slots : List RawSlot)
    (s e : String) :
    (s, e) ∉ (handle_remove_time_slot area slots s e).1 ∧
    (∀ x : RawSlot, x ≠ (s, e) →
      (handle_remove_time_slot area slots s e).1.count x = slots.count x) ∧
    ((s, e) ∉ slots → (handle_remove_time_slot area slots s e).1 = slots) ∧
    (handle_remove_time_slot area slots s e).2 =
      [Effect.fireSlotEvent EVENT_TIME_SLOT_REMOVED area (s, e)] := by
  refine ⟨?_, ?_, ?_, rfl⟩
  · intro hmem
    have h2 := (List.mem_filter.mp hmem).2
    simp at h2
  · intro x hx
    exact List.count_filter (by simp [beq_eq_false_iff_ne.mpr hx])
  · intro hnot
    apply List.filter_eq_self.mpr
    intro a ha
    have hne : a ≠ (s, e) := fun heq => hnot (heq ▸ ha)
    simp [beq_eq_false_iff_ne.mpr hne]

/-- Witness for claim C8 at a no-match input: the list is unchanged but
the removed event is still fired. -/
theorem remove_time_slot_spec_witness :
    (handle_remove_time_slot "living_room" [("08:00:00", "22:00:00")]
        "09:00:00" "10:00:00").1.count ("08:00:00", "22:00:00") = 1 ∧
    (handle_remove_time_slot "living_room" [("08:00:00", "22:00:00")]
        "09:00:00" "10:00:00").1 = [("08:00:00", "22:00:00")] ∧
    (handle_remove_time_slot "living_room" [("08:00:00", "22:00:00")]
        "09:00:00" "10:00:00").2 =
      [Effect.fireSlotEvent EVENT_TIME_SLOT_REMOVED "living_room"
        ("09:00:00", "10:00:00")] := by
  have h := remove_time_slot_spec "living_room" [("08:00:00", "22:00:00")]
    "09:00:00" "10:00:00"
  refine ⟨?_, h.2.2.1 (by decide), h.2.2.2⟩
  rw [h.2.1 ("08:00:00", "22:00:00") (by decide)]
  decide

/-- Claim C2 is violated by the code: two consecutive inactive motion
events for the same sensor arm twice, the second arm overwrites the
pending-timer dict entry without cancelling task 0 (both tasks stay
live, no cancellation is emitted), and when both timers elapse with no
motion active the turn-off action and the cancelled event fire twice,
not at most once. -/
theorem arm_twice_fires_twice :
    st_armed_once.restore_timers = [("binary_sensor.m", 0)] ∧
    st_armed_twice.restore_timers = [("binary_sensor.m", 1)] ∧
    st_armed_twice.live_timers = [0, 1] ∧
    effects_second_arm = [Effect.spawnDelayTimer "binary_sensor.m" 1 180] ∧
    fired_after_two_arms.countP is_turn_off = 2 ∧
    fired_after_two_arms.countP
      (fun eff =>
        eff == Effect.fireEvent EVENT_RESTORATION_CANCELLED "living_room") =
      2 := by
  decide

/-- Claim C3 is violated by the code: `_handle_add_time_slot` performs
no parsing and no validation, so a malformed start string — and equally
a start later than the end — is appended to the slot list and the
added event is fired, instead of being rejected with the list unchanged
and no event. -/
theorem add_time_slot_counterexample :
    parse_time "not-a-time" = none ∧
    parse_time "23:00:00" = some 82800 ∧
    parse_time "01:00:00" = some 3600 ∧
    (handle_add_time_slot "living_room" [] "not-a-time" "10:00:00").1 =
      [("not-a-time", "10:00:00")] ∧
    (handle_add_time_slot "living_room" [] "not-a-time" "10:00:00").2 =
      [Effect.fireSlotEvent EVENT_TIME_SLOT_ADDED "living_room"
        ("not-a-time", "10:00:00")] ∧
    (handle_add_time_slot "living_room" [] "23:00:00" "01:00:00").1 =
      [("23:00:00", "01:00:00")] := by
  decide

/-- Claim C3, amended: the add-time-slot handler performs no parsing and
no `start ≤ end` validation; every request — malformed time strings and
`start > end` pairs included — appends the raw pair to the slot list and
fires the `time_slot_added` event. -/
theorem add_time_slot_accepts_invalid (area : String) (slots : List RawSlot)
    (s e : String)
    (h : parse_time s = none ∨ parse_time e = none ∨
      ∃ ts te, parse_time s = some ts ∧ parse_time e = some te ∧ te < ts) :
    handle_add_time_slot area slots s e =
      (slots ++ [(s, e)],
       [Effect.fireSlotEvent EVENT_TIME_SLOT_ADDED area (s, e)]) := rfl

/-- Witness for the amended claim C3 at a malformed start string. -/
theorem add_time_slot_accepts_invalid_witness :
    handle_add_time_slot "living_room" [] "not-a-time" "10:00:00" =
      ([("not-a-time", "10:00:00")],
       [Effect.fireSlotEvent EVENT_TIME_SLOT_ADDED "living_room"
         ("not-a-time", "10:00:00")]) :=
  add_time_slot_accepts_invalid "living_room" [] "not-a-time" "10:00:00"
    (Or.inl (by decide))

end LightStateRestoration
